import Mathlib

/-!
Shallow embedding of the tank-battle game sources (`game_map.py`, `bullet.py`,
`tank.py`, `player_tank.py`, `enemy_tank.py`, `game.py`).

Conventions of the embedding:
* pixel coordinates and all numeric fields are `Int` (the sources only ever
  combine integer constants with integer arithmetic);
* Python's floor division `//` is `Int.fdiv`;
* `pygame.time.get_ticks()` is an explicit `now : Int` parameter;
* `random.random()` draws are explicit `ℚ` parameters, `random.choice`
  draws are explicit index parameters;
* mutation is explicit state passing: a mutating method returns the updated
  object (paired with its Python return value when it has one).

The constants of `config.py` (screen size, tile size, tank size and speed,
bullet speed and size) are not part of the sources; they appear here as
parameters of the definitions that read them.
-/

/-- Tile kinds of the map grid (`EMPTY`, `GRASS`, `BRICK_WALL`, `STEEL_WALL`,
`WATER` in `config.py`). -/
inductive Tile
  | empty
  | grass
  | brickWall
  | steelWall
  | water
  deriving DecidableEq, Repr, Inhabited

/-- The four cardinal facing directions (`UP`, `DOWN`, `LEFT`, `RIGHT`). -/
inductive Direction
  | up
  | down
  | left
  | right
  deriving DecidableEq, Repr, Inhabited

/-- Bullet owner tags: the sources pass `"player"`, `"enemy"`, and
`Tank.shoot` defaults to `"unknown"`. -/
inductive Owner
  | player
  | enemy
  | unknown
  deriving DecidableEq, Repr, Inhabited

/-- Modelled from the spec: the `DIRECTIONS` table of the missing `config.py`,
described by the spec as the "direction-unit-vector" of each cardinal
direction, in screen coordinates (y grows downward). -/
def dirVec : Direction → Int × Int
  | Direction.up => (0, -1)
  | Direction.down => (0, 1)
  | Direction.left => (-1, 0)
  | Direction.right => (1, 0)

/-- `pygame.Rect left top width height`. -/
structure Rect where
  left : Int
  top : Int
  w : Int
  h : Int
  deriving DecidableEq, Repr, Inhabited

def Rect.right (r : Rect) : Int := r.left + r.w

def Rect.bottom (r : Rect) : Int := r.top + r.h

/-- `pygame.Rect.colliderect`: true iff the two rectangles share interior
area (touching edges do not collide, zero-sized rectangles never collide). -/
def Rect.collide (a b : Rect) : Bool :=
  decide (a.left < b.right ∧ b.left < a.right ∧ a.top < b.bottom ∧ b.top < a.bottom)

/-- `GameMap` of `game_map.py`: grid dimensions in tiles, tile side length in
pixels, and the row-major tile grid (`map_data[y][x]`). -/
structure GameMap where
  width : Nat
  height : Nat
  tileSize : Int
  mapData : List (List Tile)
  deriving DecidableEq, Repr

/-- Reading `map_data[ty][tx]`; the sources only index inside the grid, the
defaults are never reached on a well-formed map. -/
def GameMap.cell (m : GameMap) (tx ty : Nat) : Tile :=
  (m.mapData.getD ty []).getD tx Tile.empty

/-- `GameMap.get_tile_at_position`: floor-divide the pixel position by the
tile size; out-of-range cells read as `STEEL_WALL`. -/
def GameMap.getTileAtPosition (m : GameMap) (x y : Int) : Tile :=
  let tileX := Int.fdiv x m.tileSize
  let tileY := Int.fdiv y m.tileSize
  if 0 ≤ tileX ∧ tileX < (m.width : Int) ∧ 0 ≤ tileY ∧ tileY < (m.height : Int) then
    m.cell tileX.toNat tileY.toNat
  else Tile.steelWall

/-- `GameMap.is_passable`: the tile at the position is `EMPTY` or `GRASS`. -/
def GameMap.isPassable (m : GameMap) (x y : Int) : Bool :=
  decide (m.getTileAtPosition x y = Tile.empty ∨ m.getTileAtPosition x y = Tile.grass)

/-- `GameMap.can_destroy_tile`: the tile at the position is `BRICK_WALL`. -/
def GameMap.canDestroyTile (m : GameMap) (x y : Int) : Bool :=
  decide (m.getTileAtPosition x y = Tile.brickWall)

/-- `GameMap.destroy_tile`: if the pixel position lands on an in-range
`BRICK_WALL` cell, replace it by `EMPTY` and report success, else no-op. -/
def GameMap.destroyTile (m : GameMap) (x y : Int) : Bool × GameMap :=
  let tileX := Int.fdiv x m.tileSize
  let tileY := Int.fdiv y m.tileSize
  if 0 ≤ tileX ∧ tileX < (m.width : Int) ∧ 0 ≤ tileY ∧ tileY < (m.height : Int) ∧
      m.cell tileX.toNat tileY.toNat = Tile.brickWall then
    let newRow := (m.mapData.getD tileY.toNat []).set tileX.toNat Tile.empty
    (true, { m with mapData := m.mapData.set tileY.toNat newRow })
  else (false, m)

/-- `GameMap.check_collision_with_rect`: sample the rectangle's four corner
pixels `(left, top)`, `(right-1, top)`, `(left, bottom-1)`,
`(right-1, bottom-1)`; any impassable corner is a collision. -/
def GameMap.checkCollisionWithRect (m : GameMap) (r : Rect) : Bool :=
  !(m.isPassable r.left r.top) ||
  !(m.isPassable (r.right - 1) r.top) ||
  !(m.isPassable r.left (r.bottom - 1)) ||
  !(m.isPassable (r.right - 1) (r.bottom - 1))

/-- The random-fill probability table of `GameMap.generate_map`, applied to
one `random.random()` draw: `< 0.3` brick, `< 0.35` steel, `< 0.4` water,
else the cell keeps its cleared `EMPTY` value. -/
def fillTile (q : ℚ) : Tile :=
  if q < 3 / 10 then Tile.brickWall
  else if q < 35 / 100 then Tile.steelWall
  else if q < 2 / 5 then Tile.water
  else Tile.empty

/-- The cells of the central plus-shaped `BRICK_WALL` cross stamped last by
`GameMap.generate_map`: row `h / 2` at columns `w / 2 + i` and column `w / 2`
at rows `h / 2 + i` for `-2 ≤ i ≤ 2`, each guarded to lie strictly inside the
border (`1 < coordinate < size - 1` on the varying coordinate). The Python
comparisons on possibly negative `center + i` are rendered with additions on
`Nat`. -/
def crossCell (w h x y : Nat) : Prop :=
  (y = h / 2 ∧ w / 2 ≤ x + 2 ∧ x ≤ w / 2 + 2 ∧ 1 < x ∧ x + 1 < w) ∨
  (x = w / 2 ∧ h / 2 ≤ y + 2 ∧ y ≤ h / 2 + 2 ∧ 1 < y ∧ y + 1 < h)

instance (w h x y : Nat) : Decidable (crossCell w h x y) := by
  unfold crossCell; exact inferInstance

/-- The player spawn exclusion zone skipped by the random fill:
`y ≥ height - 4 ∧ x ≤ 3` (bottom-left), with the Python `Int` comparison
`y ≥ h - 4` rendered as `h ≤ y + 4` on `Nat`. -/
def inPlayerZone (h x y : Nat) : Prop := h ≤ y + 4 ∧ x ≤ 3

instance (h x y : Nat) : Decidable (inPlayerZone h x y) := by
  unfold inPlayerZone; exact inferInstance

/-- The enemy spawn exclusion zone skipped by the random fill:
`y ≤ 3 ∧ x ≥ width - 4` (top-right). -/
def inEnemyZone (w x y : Nat) : Prop := y ≤ 3 ∧ w ≤ x + 4

instance (w x y : Nat) : Decidable (inEnemyZone w x y) := by
  unfold inEnemyZone; exact inferInstance

/-- The interior band visited by the random fill loops:
`range(2, h-2) × range(2, w-2)`. -/
def inFillRange (w h x y : Nat) : Prop := 2 ≤ y ∧ y + 2 < h ∧ 2 ≤ x ∧ x + 2 < w

instance (w h x y : Nat) : Decidable (inFillRange w h x y) := by
  unfold inFillRange; exact inferInstance

/-- The value of cell `(x, y)` after the four phases of
`GameMap.generate_map`, read off last-write-wins: the cross overlay is
stamped last and overwrites; before it, the border ring is `STEEL_WALL`; the
random fill writes only interior cells outside both exclusion zones (each
such cell is written exactly once, from its own draw `rand y x`); every other
cell keeps the cleared `EMPTY`.  The four phases write disjoint cell sets
except for the cross, so this pointwise reading agrees with the sequential
mutation of the source. -/
def genTile (w h : Nat) (rand : Nat → Nat → ℚ) (x y : Nat) : Tile :=
  if crossCell w h x y then Tile.brickWall
  else if y = 0 ∨ y = h - 1 ∨ x = 0 ∨ x = w - 1 then Tile.steelWall
  else if inFillRange w h x y ∧ ¬ inPlayerZone h x y ∧ ¬ inEnemyZone w x y then
    fillTile (rand y x)
  else Tile.empty

/-- `GameMap.generate_map` (composed with `__init__`): the freshly generated
grid, with the `random.random()` draw consumed at interior cell `(x, y)`
supplied as `rand y x`. -/
def GameMap.generate (w h : Nat) (ts : Int) (rand : Nat → Nat → ℚ) : GameMap :=
  { width := w, height := h, tileSize := ts,
    mapData := (List.range h).map fun y => (List.range w).map fun x => genTile w h rand x y }

/-- `Bullet` of `bullet.py`: pixel position, facing, owner tag, speed, size,
active flag, and the per-frame velocity `(dx, dy)` fixed at construction. -/
structure Bullet where
  x : Int
  y : Int
  direction : Direction
  owner : Owner
  speed : Int
  size : Int
  active : Bool
  dx : Int
  dy : Int
  deriving DecidableEq, Repr, Inhabited

/-- `Bullet.__init__`: active, with velocity `DIRECTIONS[direction] * speed`.
The speed and size come from the `BULLET_SPEED` / `BULLET_SIZE` constants of
the missing `config.py`, supplied here as parameters. -/
def Bullet.init (x y : Int) (d : Direction) (ow : Owner) (speed size : Int) : Bullet :=
  { x := x, y := y, direction := d, owner := ow, speed := speed, size := size,
    active := true, dx := (dirVec d).1 * speed, dy := (dirVec d).2 * speed }

/-- `Bullet.update`: no-op when inactive; else move by the velocity, then mark
inactive when the new position leaves `[0, screenW] × [0, screenH]` (the
moved-out position itself is committed). -/
def Bullet.update (b : Bullet) (screenW screenH : Int) : Bullet :=
  if b.active = false then b
  else if b.x + b.dx < 0 ∨ b.x + b.dx > screenW ∨ b.y + b.dy < 0 ∨ b.y + b.dy > screenH then
    { b with x := b.x + b.dx, y := b.y + b.dy, active := false }
  else { b with x := b.x + b.dx, y := b.y + b.dy }

/-- `N` consecutive `Bullet.update` calls. -/
def Bullet.advanceN (b : Bullet) (screenW screenH : Int) : Nat → Bullet
  | 0 => b
  | n + 1 => (b.advanceN screenW screenH n).update screenW screenH

/-- `Bullet.get_rect`: the bounding square centered on the position. -/
def Bullet.getRect (b : Bullet) : Rect :=
  { left := b.x - Int.fdiv b.size 2, top := b.y - Int.fdiv b.size 2,
    w := b.size, h := b.size }

/-- `Bullet.destroy`. -/
def Bullet.destroy (b : Bullet) : Bullet := { b with active := false }

/-- `Bullet.check_collision_with_rect`: false when inactive; on bounding-box
overlap, deactivate the bullet and report the hit. -/
def Bullet.checkCollisionWithRect (b : Bullet) (r : Rect) : Bool × Bullet :=
  if b.active = false then (false, b)
  else if Rect.collide b.getRect r then (true, { b with active := false })
  else (false, b)

/-- The position inside `[0, screenW] × [0, screenH]`, the negation of
`Bullet.update`'s deactivation test. -/
def inBounds (screenW screenH x y : Int) : Prop :=
  0 ≤ x ∧ x ≤ screenW ∧ 0 ≤ y ∧ y ≤ screenH

instance (screenW screenH x y : Int) : Decidable (inBounds screenW screenH x y) := by
  unfold inBounds; exact inferInstance

/-- `Tank` of `tank.py` (the fields the formalized operations read; the
draw-only `color` and the unused `moving` / `target_(x,y)` fields are not
carried). -/
structure Tank where
  x : Int
  y : Int
  direction : Direction
  size : Int
  speed : Int
  alive : Bool
  lastShotTime : Int
  shotCooldown : Int
  deriving DecidableEq, Repr, Inhabited

/-- `Tank.get_rect`: bounding square centered on the position. -/
def Tank.getRect (t : Tank) : Rect :=
  { left := t.x - Int.fdiv t.size 2, top := t.y - Int.fdiv t.size 2,
    w := t.size, h := t.size }

/-- `Tank.get_front_position`: the tank center offset along its facing by
`size // 2 + 5`. -/
def Tank.getFrontPosition (t : Tank) : Int × Int :=
  ((t.x + (dirVec t.direction).1 * (Int.fdiv t.size 2 + 5)),
   (t.y + (dirVec t.direction).2 * (Int.fdiv t.size 2 + 5)))

/-- `Tank.can_move`: the candidate bounding square does not collide with the
map. -/
def Tank.canMove (t : Tank) (newX newY : Int) (m : GameMap) : Bool :=
  !(m.checkCollisionWithRect
      { left := newX - Int.fdiv t.size 2, top := newY - Int.fdiv t.size 2,
        w := t.size, h := t.size })

/-- `Tank.move`: dead tanks fail without any change; else the facing is set
to the requested direction, and the move commits exactly when the candidate
square is collision-free. -/
def Tank.move (t : Tank) (d : Direction) (m : GameMap) : Bool × Tank :=
  if t.alive = false then (false, t)
  else
    let t1 := { t with direction := d }
    let newX := t.x + (dirVec d).1 * t.speed
    let newY := t.y + (dirVec d).2 * t.speed
    if t1.canMove newX newY m then (true, { t1 with x := newX, y := newY })
    else (false, t1)

/-- `Tank.can_shoot` at clock reading `now`: alive and the cooldown has
elapsed since the last shot. -/
def Tank.canShoot (t : Tank) (now : Int) : Bool :=
  t.alive && decide (t.shotCooldown ≤ now - t.lastShotTime)

/-- `Tank.shoot` at clock reading `now`: `none` when `can_shoot` fails; else
stamp `last_shot_time := now` and return the bullet spawned at the front
position with the tank's facing and the given owner tag. -/
def Tank.shoot (t : Tank) (now : Int) (ow : Owner) (bulletSpeed bulletSize : Int) :
    Option Bullet × Tank :=
  if t.canShoot now = false then (none, t)
  else
    let t1 := { t with lastShotTime := now }
    (some (Bullet.init t.getFrontPosition.1 t.getFrontPosition.2 t.direction ow
        bulletSpeed bulletSize), t1)

/-- `Tank.check_collision_with_bullet`: false unless tank alive and bullet
active; delegates to the bullet's one-shot rectangle resolution (which
deactivates the bullet on a hit). -/
def Tank.checkCollisionWithBullet (t : Tank) (b : Bullet) : Bool × Bullet :=
  if t.alive = false ∨ b.active = false then (false, b)
  else b.checkCollisionWithRect t.getRect

/-- `PlayerTank` of `player_tank.py`: the base tank plus lives, the
invulnerability-expiry timestamp and duration, and the respawn anchor. -/
structure PlayerTank where
  tank : Tank
  lives : Int
  maxLives : Int
  invulnerableTime : Int
  invulnerableDuration : Int
  respawnX : Int
  respawnY : Int
  deriving DecidableEq, Repr, Inhabited

/-- `PlayerTank.respawn` at clock reading `now`: back to the anchor, facing
`UP`, alive, with a fresh invulnerability window. -/
def PlayerTank.respawn (p : PlayerTank) (now : Int) : PlayerTank :=
  let t1 := { p.tank with
    x := p.respawnX
    y := p.respawnY
    direction := Direction.up
    alive := true }
  { p with tank := t1, invulnerableTime := now + p.invulnerableDuration }

/-- `PlayerTank.take_damage` at clock reading `now`: no-op inside the
invulnerability window; else decrement lives, then respawn if lives remain,
else die. -/
def PlayerTank.takeDamage (p : PlayerTank) (now : Int) : PlayerTank :=
  if now < p.invulnerableTime then p
  else
    let p1 := { p with lives := p.lives - 1 }
    if p1.lives > 0 then p1.respawn now
    else { p1 with tank := { p1.tank with alive := false } }

/-- `PlayerTank.is_invulnerable` at clock reading `now`. -/
def PlayerTank.isInvulnerable (p : PlayerTank) (now : Int) : Bool :=
  decide (now < p.invulnerableTime)

/-- `EnemyTank` / `SmartEnemyTank` of `enemy_tank.py`, as the collision and
spawn code of `game.py` sees them: the inherited tank core plus the variant
tag.  The AI-only fields (decision timer and interval, committed action,
target direction, stuck counter and position history, shoot probability,
last-seen-player placeholder) are read by no formalized operation and are
not carried. -/
structure EnemyTank where
  tank : Tank
  smart : Bool
  deriving DecidableEq, Repr, Inhabited

/-- `EnemyTank.__init__`: facing `DOWN`, alive, `shot_cooldown = 800`; size
and speed come from the `TANK_SIZE` / `TANK_SPEED` constants of the missing
`config.py`, supplied as parameters. -/
def mkEnemyTank (x y tankSize tankSpeed : Int) : EnemyTank :=
  { tank := { x := x, y := y, direction := Direction.down, size := tankSize,
              speed := tankSpeed, alive := true, lastShotTime := 0,
              shotCooldown := 800 },
    smart := false }

/-- `SmartEnemyTank.__init__`: as `EnemyTank` but `shot_cooldown = 600`. -/
def mkSmartEnemyTank (x y tankSize tankSpeed : Int) : EnemyTank :=
  { tank := { x := x, y := y, direction := Direction.down, size := tankSize,
              speed := tankSpeed, alive := true, lastShotTime := 0,
              shotCooldown := 600 },
    smart := true }

/-- The slice of `Game` state read and written by `check_collisions` and
`spawn_enemy`. -/
structure GameState where
  gameMap : GameMap
  player : PlayerTank
  enemies : List EnemyTank
  bullets : List Bullet
  deriving DecidableEq, Repr

/-- `Game.spawn_enemy`, with the random draws explicit: `choice` indexes the
anchor list (`random.choice(self.enemy_spawn_positions)`) and `smartDraw` is
the `random.random()` variant draw (`< 0.4` picks `SmartEnemyTank`).  Reject
when 5 or more enemies are listed; reject when the spawn square overlaps the
living player's square or any living enemy's square; else append exactly one
new enemy. -/
def spawnEnemy (st : GameState) (anchors : List (Int × Int)) (choice : Nat)
    (smartDraw : ℚ) (tankSize tankSpeed : Int) : Bool × GameState :=
  if st.enemies.length ≥ 5 then (false, st)
  else
    let pos := anchors.getD choice (0, 0)
    let spawnRect : Rect :=
      { left := pos.1 - Int.fdiv tankSize 2, top := pos.2 - Int.fdiv tankSize 2,
        w := tankSize, h := tankSize }
    if st.player.tank.alive && Rect.collide spawnRect st.player.tank.getRect then
      (false, st)
    else if st.enemies.any fun e => e.tank.alive && Rect.collide spawnRect e.tank.getRect then
      (false, st)
    else
      let newEnemy :=
        if smartDraw < 2 / 5 then mkSmartEnemyTank pos.1 pos.2 tankSize tankSpeed
        else mkEnemyTank pos.1 pos.2 tankSize tankSpeed
      (true, { st with enemies := st.enemies ++ [newEnemy] })

/-- The bullet-vs-enemy scan of `check_collisions`: walk the enemy list, and
at the first living enemy whose square resolves against the bullet, set its
alive flag false (`take_damage`) and stop (`break`); report whether a hit
happened. -/
def hitFirstEnemy (es : List EnemyTank) (b : Bullet) : List EnemyTank × Bool :=
  match es with
  | [] => ([], false)
  | e :: rest =>
    if e.tank.alive && (Tank.checkCollisionWithBullet e.tank b).1 then
      ({ e with tank := { e.tank with alive := false } } :: rest, true)
    else
      let p := hitFirstEnemy rest b
      (e :: p.1, p.2)

/-- The bullet-vs-bullet scan of `check_collisions` for the bullet `b` held
at index `i`: find the first other bullet that is active, has a different
owner, and overlaps `b`'s square; deactivate both and stop (`break`). -/
def bulletVsBullets (bullets : List Bullet) (i : Nat) (b : Bullet) : List Bullet :=
  match bullets.enum.find? (fun pr =>
      decide (pr.1 ≠ i) && pr.2.active && decide (pr.2.owner ≠ b.owner) &&
      Rect.collide b.getRect pr.2.getRect) with
  | none => bullets
  | some pr =>
    (bullets.set i { b with active := false }).set pr.1 { pr.2 with active := false }

/-- One iteration of the outer loop of `Game.check_collisions`, for the
bullet at index `i`: skip inactive bullets; a map collision destroys the
tile under the bullet when it is brick and consumes the bullet (`continue`);
an enemy-owned bullet overlapping the living player damages the player
unless invulnerable and is consumed (`continue`); else a player-owned bullet
kills the first living overlapping enemy and is consumed — with no
`continue`, so the bullet-vs-bullet scan below still runs — and finally the
bullet-vs-bullet scan may consume the bullet together with the first
overlapping active opposing bullet. -/
def processBullet (now : Int) (st : GameState) (i : Nat) : GameState :=
  let b := st.bullets.getD i default
  if b.active = false then st
  else if st.gameMap.checkCollisionWithRect b.getRect then
    let m1 := if st.gameMap.canDestroyTile b.x b.y then (st.gameMap.destroyTile b.x b.y).2
              else st.gameMap
    { st with gameMap := m1, bullets := st.bullets.set i b.destroy }
  else if b.owner = Owner.enemy ∧ st.player.tank.alive = true ∧
      (Tank.checkCollisionWithBullet st.player.tank b).1 = true then
    let p1 := if st.player.isInvulnerable now = false then st.player.takeDamage now
              else st.player
    { st with player := p1, bullets := st.bullets.set i b.destroy }
  else
    let er := if b.owner = Owner.player then hitFirstEnemy st.enemies b
              else (st.enemies, false)
    let bullets1 := if er.2 then st.bullets.set i b.destroy else st.bullets
    { st with enemies := er.1, bullets := bulletVsBullets bullets1 i b }

/-- `Game.check_collisions`: the outer loop over (a copy of) the bullet list;
no iteration changes the list's length, so the iteration is over the indices
`0, …, length - 1` in order. -/
def checkCollisions (now : Int) (st : GameState) : GameState :=
  List.foldl (processBullet now) st (List.range st.bullets.length)

/-- Follows the spec's words (§4.8) rather than the source, for comparison
with `processBullet`: the first matching category deactivates the bullet and
no further checks apply to it this frame — in particular an enemy hit also
ends the bullet's pass, where the source falls through to the
bullet-vs-bullet scan. -/
def processBulletSpec (now : Int) (st : GameState) (i : Nat) : GameState :=
  let b := st.bullets.getD i default
  if b.active = false then st
  else if st.gameMap.checkCollisionWithRect b.getRect then
    let m1 := if st.gameMap.canDestroyTile b.x b.y then (st.gameMap.destroyTile b.x b.y).2
              else st.gameMap
    { st with gameMap := m1, bullets := st.bullets.set i b.destroy }
  else if b.owner = Owner.enemy ∧ st.player.tank.alive = true ∧
      (Tank.checkCollisionWithBullet st.player.tank b).1 = true then
    let p1 := if st.player.isInvulnerable now = false then st.player.takeDamage now
              else st.player
    { st with player := p1, bullets := st.bullets.set i b.destroy }
  else if b.owner = Owner.player ∧ (hitFirstEnemy st.enemies b).2 = true then
    { st with enemies := (hitFirstEnemy st.enemies b).1,
              bullets := st.bullets.set i b.destroy }
  else
    { st with bullets := bulletVsBullets st.bullets i b }

/-- The collision pass as the spec's words describe it; compare
`checkCollisions`. -/
def checkCollisionsSpec (now : Int) (st : GameState) : GameState :=
  List.foldl (processBulletSpec now) st (List.range st.bullets.length)

/-! Concrete sample inputs used to instantiate the theorems below. -/

/-- A 20×15 all-`EMPTY` grid with 40-pixel tiles. -/
def mapEx : GameMap :=
  { width := 20, height := 15, tileSize := 40,
    mapData := List.replicate 15 (List.replicate 20 Tile.empty) }

/-- An all-`EMPTY` row of width 6. -/
def emptyRow6 : List Tile := List.replicate 6 Tile.empty

/-- A 6×6 grid with one `STEEL_WALL` at cell `(1, 2)` and one `BRICK_WALL`
at cell `(3, 3)`. -/
def mapEx2 : GameMap :=
  { width := 6, height := 6, tileSize := 40,
    mapData := [emptyRow6, emptyRow6,
      [Tile.empty, Tile.steelWall, Tile.empty, Tile.empty, Tile.empty, Tile.empty],
      [Tile.empty, Tile.empty, Tile.empty, Tile.brickWall, Tile.empty, Tile.empty],
      emptyRow6, emptyRow6] }

/-- A live sample tank. -/
def tankEx : Tank :=
  { x := 100, y := 100, direction := Direction.up, size := 40, speed := 5,
    alive := true, lastShotTime := 0, shotCooldown := 500 }

/-- The sample tank, dead. -/
def tankDead : Tank := { tankEx with alive := false }

/-- A sample player with two lives and an expired invulnerability window. -/
def playerEx : PlayerTank :=
  { tank := { x := 100, y := 500, direction := Direction.up, size := 40, speed := 5,
              alive := true, lastShotTime := 0, shotCooldown := 300 },
    lives := 2, maxLives := 2, invulnerableTime := 0, invulnerableDuration := 2000,
    respawnX := 100, respawnY := 500 }

/-- A sample game state: a player bullet sitting on a living enemy while an
active opposing bullet overlaps it, far from the player, on an open map. -/
def stEx : GameState :=
  { gameMap := mapEx, player := playerEx, enemies := [mkEnemyTank 400 300 40 5],
    bullets := [Bullet.init 400 300 Direction.right Owner.player 10 8,
                Bullet.init 404 300 Direction.left Owner.enemy 10 8] }

/-- Sample spawn anchor list (the three fixed anchor points of `Game`). -/
def anchorsEx : List (Int × Int) := [(740, 60), (680, 60), (740, 120)]

/-- A sample random stream for map generation: every draw is 1. -/
def randEx : Nat → Nat → ℚ := fun _ _ => 1

/-! Helper lemmas. -/

/-- Reading a just-written list index back. -/
theorem getD_set_self {α : Type} (l : List α) (i : Nat) (a d : α) (h : i < l.length) :
    (l.set i a).getD i d = a := by
  induction l generalizing i with
  | nil => simp at h
  | cons hd tl ih =>
    cases i with
    | zero => simp [List.set, List.getD]
    | succ n =>
      simp only [List.set, List.getD_cons_succ]
      exact ih n (by simpa using h)

/-- Writing one list index leaves every other index unchanged. -/
theorem getD_set_ne {α : Type} (l : List α) (i j : Nat) (a d : α) (h : i ≠ j) :
    (l.set i a).getD j d = l.getD j d := by
  induction l generalizing i j with
  | nil => simp [List.set]
  | cons hd tl ih =>
    cases i with
    | zero =>
      cases j with
      | zero => exact absurd rfl h
      | succ m => simp [List.set, List.getD_cons_succ]
    | succ n =>
      cases j with
      | zero => simp [List.set, List.getD_cons_zero]
      | succ m =>
        simp only [List.set, List.getD_cons_succ]
        exact ih n m (fun hnm => h (by omega))

/-- The generated grid reads pointwise as `genTile`. -/
theorem generate_cell_eq (w h : Nat) (ts : Int) (rand : Nat → Nat → ℚ)
    (x y : Nat) (hx : x < w) (hy : y < h) :
    (GameMap.generate w h ts rand).cell x y = genTile w h rand x y := by
  unfold GameMap.generate GameMap.cell
  simp only [List.getD_eq_getElem?_getD, List.getElem?_map, List.getElem?_range, hy,
    if_pos, Option.map_some', Option.getD_some]
  simp [List.getElem?_range, hx, hy]

/-! Claim theorems. -/

/-- Claim C10: for a tank whose alive flag is false, `move` returns false and
leaves every field unchanged — in particular the facing is not updated,
because the dead check returns before the facing is set. -/
theorem move_dead_no_change (t : Tank) (d : Direction) (m : GameMap)
    (h : t.alive = false) : Tank.move t d m = (false, t) := by
  simp [Tank.move, h]

/-- Witness for C10 at a concrete dead tank. -/
theorem move_dead_no_change_witness :
    Tank.move tankDead Direction.left mapEx2 = (false, tankDead) :=
  move_dead_no_change tankDead Direction.left mapEx2 rfl

/-- Claim C3: for an alive tank, `move` always sets the facing to the
requested direction; if the candidate bounding square collides with the map
(it touches an impassable corner) the move returns false with the position
unchanged, and if it does not collide the move returns true with the
position shifted by exactly speed × unit-vector(direction). -/
theorem move_alive_spec (t : Tank) (d : Direction) (m : GameMap)
    (h : t.alive = true) :
    (Tank.move t d m).2.direction = d ∧
    (m.checkCollisionWithRect
        { left := t.x + (dirVec d).1 * t.speed - Int.fdiv t.size 2,
          top := t.y + (dirVec d).2 * t.speed - Int.fdiv t.size 2,
          w := t.size, h := t.size } = true →
      Tank.move t d m = (false, { t with direction := d })) ∧
    (m.checkCollisionWithRect
        { left := t.x + (dirVec d).1 * t.speed - Int.fdiv t.size 2,
          top := t.y + (dirVec d).2 * t.speed - Int.fdiv t.size 2,
          w := t.size, h := t.size } = false →
      Tank.move t d m = (true,
        { t with direction := d,
                 x := t.x + (dirVec d).1 * t.speed,
                 y := t.y + (dirVec d).2 * t.speed })) := by
  refine ⟨?_, ?_, ?_⟩
  · unfold Tank.move Tank.canMove
    simp only [h]
    split
    · simp_all
    · split <;> rfl
  · intro hc
    unfold Tank.move Tank.canMove
    simp [h, hc]
  · intro hc
    unfold Tank.move Tank.canMove
    simp [h, hc]

/-- Witness for C3: the sample tank on the sample map, blocked moving left
into the steel tile, free moving right into open space. -/
theorem move_alive_spec_witness :
    Tank.move tankEx Direction.left mapEx2 =
      (false, { tankEx with direction := Direction.left }) ∧
    Tank.move tankEx Direction.right mapEx2 =
      (true, { tankEx with direction := Direction.right, x := 105, y := 100 }) :=
  ⟨(move_alive_spec tankEx Direction.left mapEx2 rfl).2.1 (by decide),
   (move_alive_spec tankEx Direction.right mapEx2 rfl).2.2 (by decide)⟩

/-- Claim C2: `PlayerTank.take_damage` is a no-op while invulnerable; with
the window expired and lives = 1 it sets lives = 0 and alive = false; with
lives = 2 it sets lives = 1, teleports to the respawn anchor facing `UP`,
keeps alive = true, and opens a fresh invulnerability window
`now + duration`. -/
theorem player_take_damage_spec (p : PlayerTank) (now : Int) :
    (now < p.invulnerableTime → p.takeDamage now = p) ∧
    (p.invulnerableTime ≤ now → p.lives = 1 →
      p.takeDamage now = { p with lives := 0, tank := { p.tank with alive := false } }) ∧
    (p.invulnerableTime ≤ now → p.lives = 2 →
      p.takeDamage now =
        { p with
            lives := 1
            tank := { p.tank with x := p.respawnX, y := p.respawnY, direction := Direction.up, alive := true }
            invulnerableTime := now + p.invulnerableDuration }) := by
  refine ⟨?_, ?_, ?_⟩
  · intro hinv
    simp [PlayerTank.takeDamage, hinv]
  · intro hinv hl
    simp [PlayerTank.takeDamage, PlayerTank.respawn, not_lt.2 hinv, hl]
  · intro hinv hl
    simp [PlayerTank.takeDamage, PlayerTank.respawn, not_lt.2 hinv, hl]

/-- Witness for C2: the sample player. While invulnerable (`now = -5 < 0`)
nothing changes; at `now = 100` with lives 2 it respawns with a window to
2100; with lives 1 it dies with lives 0. -/
theorem player_take_damage_spec_witness :
    playerEx.takeDamage (-5) = playerEx ∧
    playerEx.takeDamage 100 =
      { playerEx with
          lives := 1
          tank := { playerEx.tank with x := 100, y := 500, direction := Direction.up, alive := true }
          invulnerableTime := 2100 } ∧
    PlayerTank.takeDamage { playerEx with lives := 1 } 100 =
      { playerEx with
          lives := 0
          tank := { playerEx.tank with alive := false } } := by
  refine ⟨?_, ?_, ?_⟩
  · exact (player_take_damage_spec playerEx (-5)).1 (by decide)
  · exact (player_take_damage_spec playerEx 100).2.2 (by decide) rfl
  · exact (player_take_damage_spec { playerEx with lives := 1 } 100).2.1 (by decide) rfl

/-- Claim C8: `get_tile_at_position` is total; whenever the floor-divided
cell lies outside `[0, width) × [0, height)` it returns the `STEEL_WALL`
sentinel, so `is_passable` and `can_destroy_tile` are false there
(out-of-bounds positions are impassable and indestructible). -/
theorem tile_at_out_of_bounds (m : GameMap) (x y : Int)
    (h : ¬ (0 ≤ Int.fdiv x m.tileSize ∧ Int.fdiv x m.tileSize < (m.width : Int) ∧
        0 ≤ Int.fdiv y m.tileSize ∧ Int.fdiv y m.tileSize < (m.height : Int))) :
    m.getTileAtPosition x y = Tile.steelWall ∧
    m.isPassable x y = false ∧
    m.canDestroyTile x y = false := by
  have ht : m.getTileAtPosition x y = Tile.steelWall := by
    unfold GameMap.getTileAtPosition
    simp only [h, if_false]
  refine ⟨ht, ?_, ?_⟩
  · simp [GameMap.isPassable, ht]
  · simp [GameMap.canDestroyTile, ht]

/-- Witness for C8: a negative pixel coordinate on the sample map. -/
theorem tile_at_out_of_bounds_witness :
    mapEx.getTileAtPosition (-5) 10 = Tile.steelWall ∧
    mapEx.isPassable (-5) 10 = false ∧
    mapEx.canDestroyTile (-5) 10 = false :=
  tile_at_out_of_bounds mapEx (-5) 10 (by decide)

/-- Claim C5: for a live tank ready to fire, `shoot` at `now1` returns the
bullet spawned at the tank center offset along its facing by
`size // 2 + 5` pixels and stamps `last_shot_time := now1`; a second call
less than `cooldown` later returns no bullet and leaves the stamp unchanged,
while a second call at least `cooldown` later succeeds and stamps `now2`;
in general `shoot` returns no bullet exactly when the tank is not alive or
`now - last_shot_time < cooldown`. -/
theorem shoot_cooldown_spec (t : Tank) (now1 now2 : Int) (ow : Owner)
    (bsp bsz : Int) (halive : t.alive = true)
    (hready : t.shotCooldown ≤ now1 - t.lastShotTime) :
    (Tank.shoot t now1 ow bsp bsz).1 =
      some (Bullet.init (t.x + (dirVec t.direction).1 * (Int.fdiv t.size 2 + 5))
        (t.y + (dirVec t.direction).2 * (Int.fdiv t.size 2 + 5)) t.direction ow bsp bsz) ∧
    (Tank.shoot t now1 ow bsp bsz).2 = { t with lastShotTime := now1 } ∧
    (now2 - now1 < t.shotCooldown →
      Tank.shoot { t with lastShotTime := now1 } now2 ow bsp bsz =
        (none, { t with lastShotTime := now1 })) ∧
    (t.shotCooldown ≤ now2 - now1 →
      (Tank.shoot { t with lastShotTime := now1 } now2 ow bsp bsz).1 =
        some (Bullet.init (t.x + (dirVec t.direction).1 * (Int.fdiv t.size 2 + 5))
          (t.y + (dirVec t.direction).2 * (Int.fdiv t.size 2 + 5)) t.direction ow bsp bsz) ∧
      (Tank.shoot { t with lastShotTime := now1 } now2 ow bsp bsz).2 =
        { t with lastShotTime := now2 }) ∧
    (∀ (u : Tank) (now : Int),
      (Tank.shoot u now ow bsp bsz).1 = none ↔
        (u.alive = false ∨ now - u.lastShotTime < u.shotCooldown)) := by
  have hchar : ∀ (u : Tank) (now : Int),
      (Tank.shoot u now ow bsp bsz).1 = none ↔
        (u.alive = false ∨ now - u.lastShotTime < u.shotCooldown) := by
    intro u now
    unfold Tank.shoot Tank.canShoot
    rcases hu : u.alive with _ | _
    · simp [hu]
    · by_cases hcool : u.shotCooldown ≤ now - u.lastShotTime
      · simp [hu, hcool, not_lt.2 hcool]
      · simp [hu, hcool, not_le.1 hcool]
  refine ⟨?_, ?_, ?_, ?_, hchar⟩
  · unfold Tank.shoot Tank.canShoot Tank.getFrontPosition
    simp [halive, hready]
  · unfold Tank.shoot Tank.canShoot
    simp [halive, hready]
  · intro hlt
    unfold Tank.shoot Tank.canShoot
    simp [halive, not_le.2 hlt]
  · intro hge
    unfold Tank.shoot Tank.canShoot Tank.getFrontPosition
    simp [halive, hge]

/-- Witness for C5: the sample tank (cooldown 500, last shot 0) fired at
600; a second call at 700 yields no bullet and keeps the stamp, a second
call at 1100 yields a bullet and stamps 1100. -/
theorem shoot_cooldown_spec_witness :
    (Tank.shoot tankEx 600 Owner.player 10 8).1 =
      some (Bullet.init 100 75 Direction.up Owner.player 10 8) ∧
    Tank.shoot { tankEx with lastShotTime := 600 } 700 Owner.player 10 8 =
      (none, { tankEx with lastShotTime := 600 }) ∧
    (Tank.shoot { tankEx with lastShotTime := 600 } 1100 Owner.player 10 8).2 =
      { tankEx with lastShotTime := 1100 } := by
  refine ⟨?_, ?_, ?_⟩
  · exact (shoot_cooldown_spec tankEx 600 700 Owner.player 10 8 rfl (by decide)).1
  · exact (shoot_cooldown_spec tankEx 600 700 Owner.player 10 8 rfl (by decide)).2.2.1 (by decide)
  · exact ((shoot_cooldown_spec tankEx 600 1100 Owner.player 10 8 rfl (by decide)).2.2.2.1 (by decide)).2

/-- `destroy_tile` never changes anything when the tile under the position
is not `BRICK_WALL` (also when out of bounds, where the sentinel is
`STEEL_WALL`). -/
theorem destroyTile_of_not_brick (m : GameMap) (x y : Int)
    (h : m.getTileAtPosition x y ≠ Tile.brickWall) : m.destroyTile x y = (false, m) := by
  simp only [GameMap.destroyTile]
  split
  · rename_i hcond
    have hcnd : 0 ≤ Int.fdiv x m.tileSize ∧ Int.fdiv x m.tileSize < (m.width : Int) ∧
        0 ≤ Int.fdiv y m.tileSize ∧ Int.fdiv y m.tileSize < (m.height : Int) :=
      ⟨hcond.1, hcond.2.1, hcond.2.2.1, hcond.2.2.2.1⟩
    have hbr : m.getTileAtPosition x y = Tile.brickWall := by
      simp only [GameMap.getTileAtPosition, hcnd, if_true]
      exact hcond.2.2.2.2
    exact absurd hbr h
  · rfl

/-- `destroy_tile` on a `BRICK_WALL` tile: reports success, empties exactly
that cell, and a repeat destroy at the same position is a no-op. -/
theorem destroyTile_brick_spec (m : GameMap) (x y : Int)
    (htb : m.getTileAtPosition x y = Tile.brickWall) :
    (m.destroyTile x y).1 = true ∧
    (m.destroyTile x y).2.getTileAtPosition x y = Tile.empty ∧
    (∀ a b : Nat,
      ¬ (a = (Int.fdiv x m.tileSize).toNat ∧ b = (Int.fdiv y m.tileSize).toNat) →
      (m.destroyTile x y).2.cell a b = m.cell a b) ∧
    (m.destroyTile x y).2.destroyTile x y = (false, (m.destroyTile x y).2) := by
  have hin : 0 ≤ Int.fdiv x m.tileSize ∧ Int.fdiv x m.tileSize < (m.width : Int) ∧
      0 ≤ Int.fdiv y m.tileSize ∧ Int.fdiv y m.tileSize < (m.height : Int) := by
    by_contra hn
    have hsteel : m.getTileAtPosition x y = Tile.steelWall := by
      simp only [GameMap.getTileAtPosition, hn, if_false]
    rw [htb] at hsteel
    exact absurd hsteel (by simp)
  have ht : m.getTileAtPosition x y =
      m.cell (Int.fdiv x m.tileSize).toNat (Int.fdiv y m.tileSize).toNat := by
    simp [GameMap.getTileAtPosition, hin]
  have hbrick : m.cell (Int.fdiv x m.tileSize).toNat (Int.fdiv y m.tileSize).toNat =
      Tile.brickWall := by
    rw [← ht]; exact htb
  have hres : m.destroyTile x y = (true, { m with mapData := m.mapData.set (Int.fdiv y m.tileSize).toNat ((m.mapData.getD (Int.fdiv y m.tileSize).toNat []).set (Int.fdiv x m.tileSize).toNat Tile.empty) }) := by
    simp only [GameMap.destroyTile]
    split
    · rfl
    · rename_i hcond
      exact absurd ⟨hin.1, hin.2.1, hin.2.2.1, hin.2.2.2, hbrick⟩ hcond
  have hrow : (Int.fdiv y m.tileSize).toNat < m.mapData.length := by
    by_contra hge
    have hnil : m.mapData.getD (Int.fdiv y m.tileSize).toNat [] = [] :=
      List.getD_eq_default _ _ (by omega)
    unfold GameMap.cell at hbrick
    rw [hnil] at hbrick
    simp [List.getD] at hbrick
  have hcol : (Int.fdiv x m.tileSize).toNat <
      (m.mapData.getD (Int.fdiv y m.tileSize).toNat []).length := by
    by_contra hge
    unfold GameMap.cell at hbrick
    rw [List.getD_eq_default _ _ (by omega)] at hbrick
    exact absurd hbrick (by simp)
  have hcell : (m.destroyTile x y).2.cell (Int.fdiv x m.tileSize).toNat
      (Int.fdiv y m.tileSize).toNat = Tile.empty := by
    rw [hres]
    simp only [GameMap.cell]
    rw [getD_set_self _ _ _ _ hrow, getD_set_self _ _ _ _ hcol]
  have hothers : ∀ a b : Nat,
      ¬ (a = (Int.fdiv x m.tileSize).toNat ∧ b = (Int.fdiv y m.tileSize).toNat) →
      (m.destroyTile x y).2.cell a b = m.cell a b := by
    intro a b hab
    rw [hres]
    simp only [GameMap.cell]
    by_cases hbeq : b = (Int.fdiv y m.tileSize).toNat
    · subst hbeq
      have haneq : a ≠ (Int.fdiv x m.tileSize).toNat := fun hh => hab ⟨hh, rfl⟩
      rw [getD_set_self _ _ _ _ hrow, getD_set_ne _ _ _ _ _ (fun hh => haneq hh.symm)]
    · rw [getD_set_ne _ _ _ _ _ (fun hh => hbeq hh.symm)]
  have htile : (m.destroyTile x y).2.getTileAtPosition x y = Tile.empty := by
    have hsame : (m.destroyTile x y).2.getTileAtPosition x y =
        (m.destroyTile x y).2.cell (Int.fdiv x m.tileSize).toNat
          (Int.fdiv y m.tileSize).toNat := by
      rw [hres]
      simp [GameMap.getTileAtPosition, hin]
    rw [hsame, hcell]
  exact ⟨by rw [hres], htile, hothers,
    destroyTile_of_not_brick _ x y (by rw [htile]; simp)⟩

/-- Claim C6: `destroy_tile` on a position whose tile is not `BRICK_WALL`
returns false and leaves the map unchanged; on a `BRICK_WALL` tile it
returns true, that cell becomes `EMPTY`, every other cell is unchanged, and
a second destroy at the same position returns false and changes nothing. -/
theorem destroy_tile_spec (m : GameMap) (x y : Int) :
    (m.getTileAtPosition x y ≠ Tile.brickWall → m.destroyTile x y = (false, m)) ∧
    (m.getTileAtPosition x y = Tile.brickWall →
      (m.destroyTile x y).1 = true ∧
      (m.destroyTile x y).2.getTileAtPosition x y = Tile.empty ∧
      (∀ a b : Nat,
        ¬ (a = (Int.fdiv x m.tileSize).toNat ∧ b = (Int.fdiv y m.tileSize).toNat) →
        (m.destroyTile x y).2.cell a b = m.cell a b) ∧
      (m.destroyTile x y).2.destroyTile x y = (false, (m.destroyTile x y).2)) :=
  ⟨destroyTile_of_not_brick m x y, destroyTile_brick_spec m x y⟩

/-- Witness for C6: destroying at pixel (0,0) (an `EMPTY` cell) fails and
changes nothing; destroying at pixel (140,140) (the `BRICK_WALL` cell (3,3))
succeeds, empties that cell, leaves cell (1,2) alone, and fails on repeat. -/
theorem destroy_tile_spec_witness :
    mapEx2.destroyTile 0 0 = (false, mapEx2) ∧
    (mapEx2.destroyTile 140 140).1 = true ∧
    (mapEx2.destroyTile 140 140).2.getTileAtPosition 140 140 = Tile.empty ∧
    (mapEx2.destroyTile 140 140).2.cell 1 2 = mapEx2.cell 1 2 ∧
    (mapEx2.destroyTile 140 140).2.destroyTile 140 140 =
      (false, (mapEx2.destroyTile 140 140).2) := by
  refine ⟨?_, ?_, ?_, ?_, ?_⟩
  · exact (destroy_tile_spec mapEx2 0 0).1 (by decide)
  · exact ((destroy_tile_spec mapEx2 140 140).2 (by decide)).1
  · exact ((destroy_tile_spec mapEx2 140 140).2 (by decide)).2.1
  · exact ((destroy_tile_spec mapEx2 140 140).2 (by decide)).2.2.1 1 2 (by decide)
  · exact ((destroy_tile_spec mapEx2 140 140).2 (by decide)).2.2.2

/-- Claim C7: on every generated map (whatever the random draws), every
border-ring cell is `STEEL_WALL`, and every non-border cell of the player
exclusion zone (rows `height-4 …`, columns `0 … 3`) or of the enemy
exclusion zone (rows `0 … 3`, columns `width-4 …`) is `EMPTY`, because the
random fill skips the zones and the central cross misses them at these grid
dimensions (the concrete `MAP_WIDTH`/`MAP_HEIGHT` come from the missing
`config.py`; any dimensions of at least 9 tiles each satisfy this). -/
theorem generate_border_and_zones (w h : Nat) (ts : Int) (rand : Nat → Nat → ℚ)
    (hw : 9 ≤ w) (hh : 9 ≤ h) (x y : Nat) (hx : x < w) (hy : y < h) :
    ((y = 0 ∨ y = h - 1 ∨ x = 0 ∨ x = w - 1) →
      (GameMap.generate w h ts rand).cell x y = Tile.steelWall) ∧
    (¬ (y = 0 ∨ y = h - 1 ∨ x = 0 ∨ x = w - 1) →
      (inPlayerZone h x y ∨ inEnemyZone w x y) →
      (GameMap.generate w h ts rand).cell x y = Tile.empty) := by
  constructor
  · intro hb
    rw [generate_cell_eq w h ts rand x y hx hy]
    unfold genTile
    have hcross : ¬ crossCell w h x y := by
      unfold crossCell
      rcases hb with hb | hb | hb | hb <;>
        (rintro (⟨h1, h2, h3, h4, h5⟩ | ⟨h1, h2, h3, h4, h5⟩) <;> omega)
    rw [if_neg hcross, if_pos hb]
  · intro hb hz
    rw [generate_cell_eq w h ts rand x y hx hy]
    unfold genTile
    have hz' : (h ≤ y + 4 ∧ x ≤ 3) ∨ (y ≤ 3 ∧ w ≤ x + 4) := by
      rcases hz with hz | hz
      · exact Or.inl hz
      · exact Or.inr hz
    have hcross : ¬ crossCell w h x y := by
      unfold crossCell
      rcases hz' with ⟨hz1, hz2⟩ | ⟨hz1, hz2⟩ <;>
        (rintro (⟨h1, h2, h3, h4, h5⟩ | ⟨h1, h2, h3, h4, h5⟩) <;> omega)
    have hfill : ¬ (inFillRange w h x y ∧ ¬ inPlayerZone h x y ∧ ¬ inEnemyZone w x y) := by
      rintro ⟨-, hnp, hne⟩
      rcases hz with hz | hz
      · exact hnp hz
      · exact hne hz
    rw [if_neg hcross, if_neg hb, if_neg hfill]

/-- Witness for C7 on a 9×9 generated map: the corner cell (0,0) is steel,
and the player-zone interior cell (1,7) is empty. -/
theorem generate_border_and_zones_witness :
    (GameMap.generate 9 9 40 randEx).cell 0 0 = Tile.steelWall ∧
    (GameMap.generate 9 9 40 randEx).cell 1 7 = Tile.empty := by
  constructor
  · exact (generate_border_and_zones 9 9 40 randEx (by decide) (by decide) 0 0
      (by decide) (by decide)).1 (by decide)
  · exact (generate_border_and_zones 9 9 40 randEx (by decide) (by decide) 1 7
      (by decide) (by decide)).2 (by decide) (by decide)

/-- `Bullet.update` leaves an inactive bullet untouched. -/
theorem update_of_inactive (b : Bullet) (sw sh : Int) (hb : b.active = false) :
    b.update sw sh = b := by
  unfold Bullet.update
  rw [if_pos hb]

/-- `Bullet.update` on an active bullet whose next position stays inside
the screen commits the move and stays active. -/
theorem update_active_in (b : Bullet) (sw sh : Int) (hb : b.active = true)
    (hin : inBounds sw sh (b.x + b.dx) (b.y + b.dy)) :
    b.update sw sh = { b with x := b.x + b.dx, y := b.y + b.dy } := by
  unfold Bullet.update
  rw [if_neg (by simp [hb]), if_neg (by unfold inBounds at hin; omega)]

/-- `Bullet.update` on an active bullet whose next position leaves the
screen commits the move and deactivates. -/
theorem update_active_out (b : Bullet) (sw sh : Int) (hb : b.active = true)
    (hout : ¬ inBounds sw sh (b.x + b.dx) (b.y + b.dy)) :
    b.update sw sh = { b with x := b.x + b.dx, y := b.y + b.dy, active := false } := by
  unfold Bullet.update
  rw [if_neg (by simp [hb]), if_pos (by unfold inBounds at hout; omega)]

/-- Claim C4: a bullet created at `P` heading `D` sits at
`P + N·speed·unitVector(D)` after `N` `advance` calls while every reached
position stays inside `[0, screenW] × [0, screenH]`; at the first step `M`
whose position exits the bounds the bullet keeps that final position and
becomes inactive, and every further call changes nothing. -/
theorem bullet_advance_spec (px py : Int) (d : Direction) (ow : Owner)
    (speed size sw sh : Int) :
    (∀ N : Nat,
      (∀ k : Nat, 1 ≤ k → k ≤ N →
        inBounds sw sh (px + (k : Int) * ((dirVec d).1 * speed))
          (py + (k : Int) * ((dirVec d).2 * speed))) →
      (Bullet.init px py d ow speed size).advanceN sw sh N =
        { Bullet.init px py d ow speed size with
            x := px + (N : Int) * ((dirVec d).1 * speed)
            y := py + (N : Int) * ((dirVec d).2 * speed) }) ∧
    (∀ M : Nat, 1 ≤ M →
      (∀ k : Nat, 1 ≤ k → k < M →
        inBounds sw sh (px + (k : Int) * ((dirVec d).1 * speed))
          (py + (k : Int) * ((dirVec d).2 * speed))) →
      ¬ inBounds sw sh (px + (M : Int) * ((dirVec d).1 * speed))
          (py + (M : Int) * ((dirVec d).2 * speed)) →
      ∀ N : Nat, M ≤ N →
        (Bullet.init px py d ow speed size).advanceN sw sh N =
          { Bullet.init px py d ow speed size with
              x := px + (M : Int) * ((dirVec d).1 * speed)
              y := py + (M : Int) * ((dirVec d).2 * speed)
              active := false }) := by
  have hlive : ∀ N : Nat,
      (∀ k : Nat, 1 ≤ k → k ≤ N →
        inBounds sw sh (px + (k : Int) * ((dirVec d).1 * speed))
          (py + (k : Int) * ((dirVec d).2 * speed))) →
      (Bullet.init px py d ow speed size).advanceN sw sh N =
        { Bullet.init px py d ow speed size with
            x := px + (N : Int) * ((dirVec d).1 * speed)
            y := py + (N : Int) * ((dirVec d).2 * speed) } := by
    intro N
    induction N with
    | zero =>
      intro _
      simp [Bullet.advanceN, Bullet.init]
    | succ n ih =>
      intro hIn
      have hn := ih (fun k hk1 hk2 => hIn k hk1 (Nat.le_succ_of_le hk2))
      have hB := hIn (n + 1) (by omega) (le_refl _)
      push_cast at hB
      have hx : px + ((n : Int) + 1) * ((dirVec d).1 * speed)
          = px + (n : Int) * ((dirVec d).1 * speed) + (dirVec d).1 * speed := by ring
      have hy : py + ((n : Int) + 1) * ((dirVec d).2 * speed)
          = py + (n : Int) * ((dirVec d).2 * speed) + (dirVec d).2 * speed := by ring
      rw [hx, hy] at hB
      show ((Bullet.init px py d ow speed size).advanceN sw sh n).update sw sh = _
      rw [hn]
      rw [update_active_in _ sw sh (by simp [Bullet.init]) hB]
      simp [Bullet.init]
      constructor <;> ring
  refine ⟨hlive, ?_⟩
  intro M hM hpre hexit
  have hstep : (Bullet.init px py d ow speed size).advanceN sw sh M =
      { Bullet.init px py d ow speed size with
          x := px + (M : Int) * ((dirVec d).1 * speed)
          y := py + (M : Int) * ((dirVec d).2 * speed)
          active := false } := by
    have hM1 : M - 1 + 1 = M := by omega
    have hn := hlive (M - 1) (fun k hk1 hk2 => hpre k hk1 (by omega))
    have hrec : (Bullet.init px py d ow speed size).advanceN sw sh M =
        ((Bullet.init px py d ow speed size).advanceN sw sh (M - 1)).update sw sh := by
      conv_lhs => rw [← hM1]
      rw [Bullet.advanceN]
    rw [hrec, hn]
    rw [update_active_out _ sw sh (by simp [Bullet.init]) ?hout]
    case hout =>
      simp only [Bullet.init]
      have hxx : px + ((M : Int) - 1) * ((dirVec d).1 * speed) + (dirVec d).1 * speed
          = px + (M : Int) * ((dirVec d).1 * speed) := by ring
      have hcast : ((M - 1 : Nat) : Int) = (M : Int) - 1 := by omega
      simp only [hcast]
      rw [hxx]
      have hyy : py + ((M : Int) - 1) * ((dirVec d).2 * speed) + (dirVec d).2 * speed
          = py + (M : Int) * ((dirVec d).2 * speed) := by ring
      rw [hyy]
      exact hexit
    simp [Bullet.init]
    constructor <;> (push_cast [Nat.cast_sub hM]; ring)
  intro N hN
  induction N, hN using Nat.le_induction with
  | base => exact hstep
  | succ n hn ihn =>
    show ((Bullet.init px py d ow speed size).advanceN sw sh n).update sw sh = _
    rw [ihn, update_of_inactive _ sw sh (by simp)]

/-- Witness for C4: a bullet at (50,50) heading right at speed 10 on a
100×100 screen reaches (80,50) after 3 steps and freezes inactive at
(110,50) from step 6 on (checked at step 8). -/
theorem bullet_advance_spec_witness :
    (Bullet.init 50 50 Direction.right Owner.player 10 8).advanceN 100 100 3 =
      { Bullet.init 50 50 Direction.right Owner.player 10 8 with x := 80, y := 50 } ∧
    (Bullet.init 50 50 Direction.right Owner.player 10 8).advanceN 100 100 8 =
      { Bullet.init 50 50 Direction.right Owner.player 10 8 with
          x := 110, y := 50, active := false } := by
  constructor
  · have h := (bullet_advance_spec 50 50 Direction.right Owner.player 10 8 100 100).1 3
      (by intro k h1 h2; simp [inBounds, dirVec]; omega)
    norm_num [dirVec] at h
    exact h
  · have h := (bullet_advance_spec 50 50 Direction.right Owner.player 10 8 100 100).2 6
      (by decide)
      (by intro k h1 h2; simp [inBounds, dirVec]; omega)
      (by simp [inBounds, dirVec])
      8 (by decide)
    norm_num [dirVec] at h
    exact h

/-- Claim C9: a spawn attempt is rejected (no enemy added, failure returned)
when 5 or more enemies are already listed, or when the spawn bounding square
at the chosen anchor overlaps the (living) player's square or any living
enemy's square; otherwise exactly one new enemy — the smart variant when the
variant draw is below 0.4, else the base variant — is appended and the
attempt succeeds. -/
theorem spawn_enemy_spec (st : GameState) (anchors : List (Int × Int)) (choice : Nat)
    (smartDraw : ℚ) (tankSize tankSpeed : Int)
    (halive : st.player.tank.alive = true) :
    (5 ≤ st.enemies.length →
      spawnEnemy st anchors choice smartDraw tankSize tankSpeed = (false, st)) ∧
    (st.enemies.length < 5 →
      (Rect.collide
          { left := (anchors.getD choice (0, 0)).1 - Int.fdiv tankSize 2,
            top := (anchors.getD choice (0, 0)).2 - Int.fdiv tankSize 2,
            w := tankSize, h := tankSize } st.player.tank.getRect = true →
        spawnEnemy st anchors choice smartDraw tankSize tankSpeed = (false, st)) ∧
      (Rect.collide
          { left := (anchors.getD choice (0, 0)).1 - Int.fdiv tankSize 2,
            top := (anchors.getD choice (0, 0)).2 - Int.fdiv tankSize 2,
            w := tankSize, h := tankSize } st.player.tank.getRect = false →
        (st.enemies.any fun e => e.tank.alive && Rect.collide
          { left := (anchors.getD choice (0, 0)).1 - Int.fdiv tankSize 2,
            top := (anchors.getD choice (0, 0)).2 - Int.fdiv tankSize 2,
            w := tankSize, h := tankSize } e.tank.getRect) = true →
        spawnEnemy st anchors choice smartDraw tankSize tankSpeed = (false, st)) ∧
      (Rect.collide
          { left := (anchors.getD choice (0, 0)).1 - Int.fdiv tankSize 2,
            top := (anchors.getD choice (0, 0)).2 - Int.fdiv tankSize 2,
            w := tankSize, h := tankSize } st.player.tank.getRect = false →
        (st.enemies.any fun e => e.tank.alive && Rect.collide
          { left := (anchors.getD choice (0, 0)).1 - Int.fdiv tankSize 2,
            top := (anchors.getD choice (0, 0)).2 - Int.fdiv tankSize 2,
            w := tankSize, h := tankSize } e.tank.getRect) = false →
        spawnEnemy st anchors choice smartDraw tankSize tankSpeed =
          (true, { st with enemies := st.enemies ++
            [if smartDraw < 2 / 5 then
              mkSmartEnemyTank (anchors.getD choice (0, 0)).1 (anchors.getD choice (0, 0)).2
                tankSize tankSpeed
             else
              mkEnemyTank (anchors.getD choice (0, 0)).1 (anchors.getD choice (0, 0)).2
                tankSize tankSpeed] }))) := by
  constructor
  · intro h5
    simp only [spawnEnemy]
    rw [if_pos h5]
  · intro h5
    refine ⟨?_, ?_, ?_⟩
    · intro hcp
      simp only [spawnEnemy]
      rw [if_neg (by omega), if_pos (by rw [halive, hcp]; rfl)]
    · intro hcp hce
      simp only [spawnEnemy]
      rw [if_neg (by omega), if_neg (by rw [hcp, Bool.and_false]; exact Bool.false_ne_true),
        if_pos hce]
    · intro hcp hce
      simp only [spawnEnemy]
      rw [if_neg (by omega), if_neg (by rw [hcp, Bool.and_false]; exact Bool.false_ne_true),
        if_neg (by rw [hce]; exact Bool.false_ne_true)]

/-- Witness for C9: from the sample state (one living enemy at (400,300),
living player at (100,500)), spawning at the free anchor (740,60) with
variant draw 1/2 appends exactly one base enemy and succeeds; spawning at an
anchor on top of the living enemy fails and changes nothing. -/
theorem spawn_enemy_spec_witness :
    spawnEnemy stEx anchorsEx 0 (1 / 2) 40 5 =
      (true, { stEx with enemies := stEx.enemies ++ [mkEnemyTank 740 60 40 5] }) ∧
    spawnEnemy stEx [(400, 300)] 0 (1 / 2) 40 5 = (false, stEx) := by
  constructor
  · have h := ((spawn_enemy_spec stEx anchorsEx 0 (1 / 2) 40 5 rfl).2 (by decide)).2.2
      (by decide) (by decide)
    rw [h, if_neg (by norm_num : ¬ ((1 : ℚ) / 2 < 2 / 5))]
    rfl
  · exact ((spawn_enemy_spec stEx [(400, 300)] 0 (1 / 2) 40 5 rfl).2 (by decide)).2.1
      (by decide) (by decide)

/-- Claim C1 (amended): one collision-pass iteration for the active bullet
at index `i` follows the precedence map, player, enemy, opposing-bullet.  A
map hit destroys the brick under the bullet (when it is one), consumes the
bullet, and stops — player and enemies are untouched, which settles the
BrickWall-plus-enemy scenario.  A player hit (enemy-owned bullet on the
living player) damages the player unless invulnerable, consumes the bullet,
and stops — map and enemies untouched.  An enemy hit kills the first living
overlapping enemy and consumes the bullet, but does NOT stop: the
opposing-bullet scan still runs for the consumed bullet and may deactivate
one overlapping active opposing bullet. -/
theorem collision_pass_precedence (now : Int) (st : GameState) (i : Nat) (b : Bullet)
    (hb : st.bullets.getD i default = b) (hact : b.active = true) :
    (st.gameMap.checkCollisionWithRect b.getRect = true →
      processBullet now st i =
        { st with
            gameMap := if st.gameMap.canDestroyTile b.x b.y then
                (st.gameMap.destroyTile b.x b.y).2 else st.gameMap
            bullets := st.bullets.set i b.destroy } ∧
      (st.gameMap.canDestroyTile b.x b.y = true →
        (processBullet now st i).gameMap.getTileAtPosition b.x b.y = Tile.empty)) ∧
    (st.gameMap.checkCollisionWithRect b.getRect = false →
      b.owner = Owner.enemy → st.player.tank.alive = true →
      (Tank.checkCollisionWithBullet st.player.tank b).1 = true →
      processBullet now st i =
        { st with
            player := if st.player.isInvulnerable now = false then
                st.player.takeDamage now else st.player
            bullets := st.bullets.set i b.destroy }) ∧
    (st.gameMap.checkCollisionWithRect b.getRect = false →
      b.owner = Owner.player →
      (hitFirstEnemy st.enemies b).2 = true →
      processBullet now st i =
        { st with
            enemies := (hitFirstEnemy st.enemies b).1
            bullets := bulletVsBullets (st.bullets.set i b.destroy) i b }) := by
  refine ⟨?_, ?_, ?_⟩
  · intro hmap
    have hpb : processBullet now st i =
        { st with
            gameMap := if st.gameMap.canDestroyTile b.x b.y then
                (st.gameMap.destroyTile b.x b.y).2 else st.gameMap
            bullets := st.bullets.set i b.destroy } := by
      simp only [processBullet, hb]
      rw [if_neg (by simp [hact]), if_pos hmap]
    refine ⟨hpb, ?_⟩
    intro hcd
    rw [hpb]
    have hbrick : st.gameMap.getTileAtPosition b.x b.y = Tile.brickWall := by
      simpa [GameMap.canDestroyTile] using hcd
    have hempty := (destroyTile_brick_spec st.gameMap b.x b.y hbrick).2.1
    simpa [hcd] using hempty
  · intro hmap howner halive hhit
    simp only [processBullet, hb]
    rw [if_neg (by simp [hact]), if_neg (by simp [hmap]), if_pos ⟨howner, halive, hhit⟩]
  · intro hmap howner hhit
    simp only [processBullet, hb]
    rw [if_neg (by simp [hact]), if_neg (by simp [hmap]),
      if_neg (by rintro ⟨ho, -, -⟩; rw [howner] at ho; exact absurd ho (by simp)),
      if_pos howner, if_pos hhit]

/-- Witness for the amended C1: in the sample state, the player bullet at
index 0 overlapping the living enemy resolves through the enemy branch and
then still undergoes the opposing-bullet scan. -/
theorem collision_pass_precedence_witness :
    processBullet 0 stEx 0 =
      { stEx with
          enemies := (hitFirstEnemy stEx.enemies
            (Bullet.init 400 300 Direction.right Owner.player 10 8)).1
          bullets := bulletVsBullets
            (stEx.bullets.set 0 (Bullet.init 400 300 Direction.right Owner.player 10 8).destroy)
            0 (Bullet.init 400 300 Direction.right Owner.player 10 8) } :=
  (collision_pass_precedence 0 stEx 0
    (Bullet.init 400 300 Direction.right Owner.player 10 8) (by decide) rfl).2.2
    (by decide) rfl (by decide)

/-- Counterexample to C1 as stated: in the sample state the player bullet
at index 0 overlaps both the living enemy and the active enemy-owned bullet
at index 1 (and nothing else).  The enemy branch matches first and kills the
enemy, yet the code still deactivates the opposing bullet at index 1 in the
same iteration, while under the claimed first-match-stops-all-checks
semantics (`checkCollisionsSpec`) that bullet stays active. -/
theorem collision_pass_counterexample :
    ((checkCollisions 0 stEx).enemies.getD 0 (mkEnemyTank 0 0 0 0)).tank.alive = false ∧
    ((checkCollisions 0 stEx).bullets.getD 1 default).active = false ∧
    ((checkCollisionsSpec 0 stEx).bullets.getD 1 default).active = true := by
  refine ⟨by decide, by decide, by decide⟩
